import Mathlib

/-!
Verification of the AI Tools Blog backend (src/main.py, src/schemas.py).

The data model (Sector, Tool, Comparison) and the HTTP handlers
(seed_content, list_sectors, sector_detail, search_tools) are embedded
as executable Lean definitions; the document store and the validation
library, which live outside src/, are modelled from the spec.
-/

namespace AITools

/-- A Pydantic-style validation error naming the offending field. -/
inductive ValidationError where
  | missing (field : String)
  | notInRange (field : String)
  | invalidUrl (field : String)
deriving DecidableEq, Repr

/-- Sector record (src/schemas.py, class Sector): `name` and `slug` are
required strings, `description` is optional. -/
structure Sector where
  name : String
  slug : String
  description : Option String
deriving DecidableEq, Repr

/-- Tool record (src/schemas.py, class Tool): `name`, `sector_slug` and
`summary` are required strings; `strengths`/`limitations` default to [];
`website`, `pricing`, `rating` are optional, with `rating` constrained to
[0, 5] and `website` a well-formed URL. Numbers are modelled as ℚ and the
validated URL is kept as its string. -/
structure Tool where
  name : String
  sector_slug : String
  summary : String
  strengths : List String
  limitations : List String
  website : Option String
  pricing : Option String
  rating : Option ℚ
deriving DecidableEq, Repr

/-- Comparison record (src/schemas.py, class Comparison). -/
structure Comparison where
  sector_slug : String
  headline : String
  intro : Option String
  top_tools : List String
deriving DecidableEq, Repr

/-- Modelled from the spec: "well-formed URL" — the HttpUrl validator lives
in the validation library, not under src/. Modelled as an http or https
scheme followed by a nonempty remainder. -/
def is_well_formed_url (u : String) : Bool :=
  ("http://".data.isPrefixOf u.data && u.data.length > 7) ||
  ("https://".data.isPrefixOf u.data && u.data.length > 8)

/-- Pydantic construction of a Sector: required fields must be present
(`none` models an absent field); no other constraint is declared on the
strings in src/schemas.py. -/
def Sector.validate (name slug description : Option String) :
    Except ValidationError Sector :=
  match name with
  | none => .error (.missing "name")
  | some n =>
    match slug with
    | none => .error (.missing "slug")
    | some sl => .ok ⟨n, sl, description⟩

/-- Pydantic construction of a Tool, field checks in declaration order:
required strings present, `website` a well-formed URL if given, `rating`
in [0, 5] if given. `strengths`/`limitations` default to []. -/
def Tool.validate (name sector_slug summary : Option String)
    (strengths limitations : Option (List String))
    (website pricing : Option String) (rating : Option ℚ) :
    Except ValidationError Tool :=
  match name with
  | none => .error (.missing "name")
  | some n =>
    match sector_slug with
    | none => .error (.missing "sector_slug")
    | some ss =>
      match summary with
      | none => .error (.missing "summary")
      | some sm =>
        let st := strengths.getD []
        let li := limitations.getD []
        match website with
        | some w =>
          if is_well_formed_url w then
            match rating with
            | some r =>
              if 0 ≤ r ∧ r ≤ 5 then .ok ⟨n, ss, sm, st, li, some w, pricing, some r⟩
              else .error (.notInRange "rating")
            | none => .ok ⟨n, ss, sm, st, li, some w, pricing, none⟩
          else .error (.invalidUrl "website")
        | none =>
          match rating with
          | some r =>
            if 0 ≤ r ∧ r ≤ 5 then .ok ⟨n, ss, sm, st, li, none, pricing, some r⟩
            else .error (.notInRange "rating")
          | none => .ok ⟨n, ss, sm, st, li, none, pricing, none⟩

/-- Pydantic construction of a Comparison: `sector_slug` and `headline`
required; `top_tools` defaults to []. -/
def Comparison.validate (sector_slug headline intro : Option String)
    (top_tools : Option (List String)) :
    Except ValidationError Comparison :=
  match sector_slug with
  | none => .error (.missing "sector_slug")
  | some ss =>
    match headline with
    | none => .error (.missing "headline")
    | some h => .ok ⟨ss, h, intro, top_tools.getD []⟩

/-- Modelled from the spec: the document store (the `database` module is
not under src/). Three independent collections of documents, kept in
insertion order; `find` scans in that order. -/
structure Store where
  sector : List Sector
  tool : List Tool
  comparison : List Comparison
deriving DecidableEq, Repr

/-- Modelled from the spec: `create_document("sector", s)` appends the
validated record to the sector collection. -/
def create_document_sector (st : Store) (s : Sector) : Store :=
  { st with sector := st.sector ++ [s] }

/-- Modelled from the spec: `create_document("tool", t)`. -/
def create_document_tool (st : Store) (t : Tool) : Store :=
  { st with tool := st.tool ++ [t] }

/-- Modelled from the spec: `create_document("comparison", c)`. -/
def create_document_comparison (st : Store) (c : Comparison) : Store :=
  { st with comparison := st.comparison ++ [c] }

/-- An HTTP error response (FastAPI HTTPException). -/
structure HTTPException where
  status_code : Nat
  detail : String
deriving DecidableEq, Repr

/-- Response body of POST /seed. -/
structure SeedResponse where
  status : String
deriving DecidableEq, Repr

/-- The five hardcoded sectors of src/main.py lines 72-78. -/
def seedSectors : List Sector :=
  [⟨"Marketing", "marketing", some "Campaigns, content, SEO"⟩,
   ⟨"Sales", "sales", some "Prospecting and enablement"⟩,
   ⟨"Customer Support", "support", some "Helpdesk and chatbots"⟩,
   ⟨"Software Development", "engineering", some "Code assistants and DevOps"⟩,
   ⟨"Design", "design", some "Images, video, UI/UX"⟩]

/-- The ten hardcoded tools of src/main.py lines 84-95. -/
def seedTools : List Tool :=
  [⟨"Jasper", "marketing", "AI copy for ads and blogs", ["Templates", "Brand voice"], ["Price"], some "https://www.jasper.ai", some "From $39/mo", some (4.2 : ℚ)⟩,
   ⟨"HubSpot AI", "marketing", "AI features inside HubSpot", ["Integrated"], ["Ecosystem lock-in"], some "https://www.hubspot.com", some "Tiered", some (4.0 : ℚ)⟩,
   ⟨"Apollo AI", "sales", "Prospecting with AI signals", ["Data"], ["Learning curve"], some "https://www.apollo.io", some "Freemium", some (4.3 : ℚ)⟩,
   ⟨"Gong", "sales", "Revenue intelligence", ["Call analysis"], ["Enterprise pricing"], some "https://www.gong.io", some "Quote-based", some (4.5 : ℚ)⟩,
   ⟨"Intercom Fin", "support", "AI chatbot for support", ["Answers from docs"], ["Requires good KB"], some "https://www.intercom.com", some "Add-on", some (4.4 : ℚ)⟩,
   ⟨"Zendesk AI", "support", "AI assist in helpdesk", ["Workflows"], ["Add-on cost"], some "https://www.zendesk.com", some "Add-on", some (4.1 : ℚ)⟩,
   ⟨"GitHub Copilot", "engineering", "Code completion and chat", ["IDE integration"], ["Best with popular langs"], some "https://github.com/features/copilot", some "$10-$19/mo", some (4.7 : ℚ)⟩,
   ⟨"OpenAI o1", "engineering", "Reasoning models for complex tasks", ["Reasoning"], ["Cost"], some "https://openai.com", some "Usage-based", some (4.6 : ℚ)⟩,
   ⟨"Midjourney", "design", "Generative images", ["Quality"], ["Discord UX"], some "https://www.midjourney.com", some "From $10/mo", some (4.6 : ℚ)⟩,
   ⟨"Figma AI", "design", "Generate and edit UI", ["Design-native"], ["Early features"], some "https://www.figma.com", some "Included", some (4.2 : ℚ)⟩]

/-- The five hardcoded comparisons of src/main.py lines 101-107. -/
def seedComparisons : List Comparison :=
  [⟨"marketing", "Best AI Tools for Marketing in 2025", some "We tested top tools for content, SEO, and campaigns.", ["Jasper", "HubSpot AI"]⟩,
   ⟨"sales", "Top AI Tools for Sales Teams", some "Prospecting, call analysis, and forecasting.", ["Gong", "Apollo AI"]⟩,
   ⟨"support", "AI for Customer Support", some "Bots, deflection, and agent assistance.", ["Intercom Fin", "Zendesk AI"]⟩,
   ⟨"engineering", "AI for Software Development", some "Code completion, reviews, and reasoning.", ["GitHub Copilot", "OpenAI o1"]⟩,
   ⟨"design", "AI for Designers", some "From ideas to assets.", ["Midjourney", "Figma AI"]⟩]

/-- POST /seed (src/main.py, seed_content): 500 if the store is not
configured; otherwise, for each collection in order, if the collection is
currently empty, insert the hardcoded records one by one. -/
def seed_content (db : Option Store) :
    Except HTTPException (Store × SeedResponse) :=
  match db with
  | none => .error ⟨500, "Database not configured"⟩
  | some st =>
    let st1 := if st.sector.isEmpty then seedSectors.foldl create_document_sector st else st
    let st2 := if st1.tool.isEmpty then seedTools.foldl create_document_tool st1 else st1
    let st3 := if st2.comparison.isEmpty then seedComparisons.foldl create_document_comparison st2 else st2
    .ok (st3, ⟨"ok"⟩)

/-- One row of the GET /sectors response. -/
structure SectorListItem where
  id : String
  name : String
  slug : String
  description : Option String
deriving DecidableEq, Repr

/-- GET /sectors (src/main.py, list_sectors): empty list when the store is
unavailable, else all sector documents shaped to {id, name, slug,
description}. The store-assigned document id (str of _id) is modelled as
the insertion index rendered as a string; no claim depends on id values. -/
def list_sectors (db : Option Store) : List SectorListItem :=
  match db with
  | none => []
  | some st =>
    ((List.range st.sector.length).zip st.sector).map
      (fun p => ⟨toString p.1, p.2.name, p.2.slug, p.2.description⟩)

/-- Shape of the sector part of the GET /sectors/{slug} response. -/
structure SectorShape where
  name : String
  slug : String
  description : Option String
deriving DecidableEq, Repr

/-- Shape of one tool in the GET /sectors/{slug} response. -/
structure ToolDetailShape where
  name : String
  summary : String
  strengths : List String
  limitations : List String
  website : Option String
  pricing : Option String
  rating : Option ℚ
deriving DecidableEq, Repr

/-- Shape of the comparison part of the GET /sectors/{slug} response. -/
structure ComparisonShape where
  headline : String
  intro : Option String
  top_tools : List String
deriving DecidableEq, Repr

/-- Full GET /sectors/{slug} success response. -/
structure SectorDetailResponse where
  sector : SectorShape
  tools : List ToolDetailShape
  comparison : Option ComparisonShape
deriving DecidableEq, Repr

/-- GET /sectors/{slug} (src/main.py, sector_detail): 500 when the store is
not configured; 404 when no sector matches the slug; otherwise the first
matching sector, all tools with that sector_slug, and the first matching
comparison or none. -/
def sector_detail (db : Option Store) (slug : String) :
    Except HTTPException SectorDetailResponse :=
  match db with
  | none => .error ⟨500, "Database not configured"⟩
  | some st =>
    match st.sector.find? (fun s => s.slug == slug) with
    | none => .error ⟨404, "Sector not found"⟩
    | some sec =>
      .ok ⟨⟨sec.name, sec.slug, sec.description⟩,
           (st.tool.filter (fun t => t.sector_slug == slug)).map
             (fun t => ⟨t.name, t.summary, t.strengths, t.limitations, t.website, t.pricing, t.rating⟩),
           (st.comparison.find? (fun c => c.sector_slug == slug)).map
             (fun c => ⟨c.headline, c.intro, c.top_tools⟩)⟩

/-- Body of POST /search (src/main.py, class SearchQuery). -/
structure SearchQuery where
  q : String
deriving DecidableEq, Repr

/-- One result row of POST /search. -/
structure SearchResultShape where
  name : String
  sector_slug : String
  summary : String
  rating : Option ℚ
  website : Option String
deriving DecidableEq, Repr

/-- Full POST /search response. -/
structure SearchResponse where
  results : List SearchResultShape
deriving DecidableEq, Repr

/-- A token of the regular-expression pattern handed to the store:
a literal character or the wildcard `.`. -/
inductive RTok where
  | lit (c : Char)
  | wild
deriving DecidableEq, Repr

/-- Modelled from the spec: the database engine's pattern matching
(`$regex` with `$options: "i"` in src/main.py line 156) — the engine is
outside the repository. The query string is read as a regular expression;
modelled here for the fragment the claims exercise: literal characters and
the `.` wildcard, with literals lowercased for case-insensitivity. -/
def rtoks (q : String) : List RTok :=
  q.data.map (fun c => if c == '.' then .wild else .lit c.toLower)

/-- Does the token list match a prefix of the (already lowercased)
character list? -/
def rmatchAt : List RTok → List Char → Bool
  | [], _ => true
  | _ :: _, [] => false
  | .lit c :: ts, x :: xs => c == x && rmatchAt ts xs
  | .wild :: ts, _ :: xs => rmatchAt ts xs

/-- Unanchored regex search: the pattern matches at some position. -/
def rcontains (ts : List RTok) (s : List Char) : Bool :=
  s.tails.any (fun t => rmatchAt ts t)

/-- Case-insensitive regex containment of pattern `q` in subject `s`,
as the store evaluates `{"$regex": q, "$options": "i"}`. -/
def regex_contains_i (q s : String) : Bool :=
  rcontains (rtoks q) (s.data.map Char.toLower)

/-- POST /search (src/main.py, search_tools): empty results when the store
is unavailable; else all tools one of whose name, summary or sector_slug
matches the query pattern case-insensitively, shaped to
{name, sector_slug, summary, rating, website}. -/
def search_tools (db : Option Store) (query : SearchQuery) : SearchResponse :=
  match db with
  | none => ⟨[]⟩
  | some st =>
    ⟨(st.tool.filter (fun t =>
        regex_contains_i query.q t.name || regex_contains_i query.q t.summary ||
        regex_contains_i query.q t.sector_slug)).map
      (fun t => ⟨t.name, t.sector_slug, t.summary, t.rating, t.website⟩)⟩

/-- Case-insensitive literal substring containment, written from the
spec's words ("case-insensitive substring match"): the lowercased query
is an infix of the lowercased subject. -/
def substr_contains_i (q s : String) : Bool :=
  (s.data.map Char.toLower).tails.any
    (fun t => (q.data.map Char.toLower).isPrefixOf t)

/-- Reference search, written from the spec's words: the tools one of
whose three fields contains the query as a case-insensitive literal
substring, shaped like the /search results. -/
def substring_search_ref (st : Store) (q : String) : SearchResponse :=
  ⟨(st.tool.filter (fun t =>
      substr_contains_i q t.name || substr_contains_i q t.summary ||
      substr_contains_i q t.sector_slug)).map
    (fun t => ⟨t.name, t.sector_slug, t.summary, t.rating, t.website⟩)⟩

/-- The characters the regex engine treats specially. -/
def is_regex_meta (c : Char) : Bool :=
  "\\^$.|?*+()[]\x7b\x7d".data.contains c

/-- The store after a successful seed of an empty store. -/
def seededStore : Store := ⟨seedSectors, seedTools, seedComparisons⟩

/-- The empty store: all three collections empty. -/
def emptyStore : Store := ⟨[], [], []⟩

/-! ### Helper lemmas -/

theorem foldl_create_document_sector (l : List Sector) (st : Store) :
    l.foldl create_document_sector st = ⟨st.sector ++ l, st.tool, st.comparison⟩ := by
  induction l generalizing st with
  | nil => cases st; simp
  | cons a as ih => simp [create_document_sector, ih]

theorem foldl_create_document_tool (l : List Tool) (st : Store) :
    l.foldl create_document_tool st = ⟨st.sector, st.tool ++ l, st.comparison⟩ := by
  induction l generalizing st with
  | nil => cases st; simp
  | cons a as ih => simp [create_document_tool, ih]

theorem foldl_create_document_comparison (l : List Comparison) (st : Store) :
    l.foldl create_document_comparison st = ⟨st.sector, st.tool, st.comparison ++ l⟩ := by
  induction l generalizing st with
  | nil => cases st; simp
  | cons a as ih => simp [create_document_comparison, ih]

theorem seed_content_some (st : Store) :
    seed_content (some st) = .ok
      (⟨if st.sector.isEmpty then seedSectors else st.sector,
        if st.tool.isEmpty then seedTools else st.tool,
        if st.comparison.isEmpty then seedComparisons else st.comparison⟩, ⟨"ok"⟩) := by
  by_cases hs : st.sector.isEmpty <;> by_cases ht : st.tool.isEmpty <;>
    by_cases hc : st.comparison.isEmpty <;>
    simp [seed_content, foldl_create_document_sector, foldl_create_document_tool,
      foldl_create_document_comparison, hs, ht, hc, List.isEmpty_iff.mp,
      List.isEmpty_iff]

theorem rmatchAt_lit (L t : List Char) : rmatchAt (L.map RTok.lit) t = L.isPrefixOf t := by
  induction L generalizing t with
  | nil => simp [rmatchAt, List.isPrefixOf]
  | cons c cs ih =>
    cases t with
    | nil => simp [rmatchAt, List.isPrefixOf]
    | cons x xs => simp [rmatchAt, List.isPrefixOf, ih]

theorem rtoks_of_no_meta (q : String) (h : ∀ c ∈ q.data, is_regex_meta c = false) :
    rtoks q = (q.data.map Char.toLower).map RTok.lit := by
  unfold rtoks
  rw [List.map_map]
  apply List.map_congr_left
  intro c hc
  have hne : c ≠ '.' := by
    intro he
    have hm := h c hc
    rw [he] at hm
    exact absurd hm (by decide)
  have hb : (c == '.') = false := beq_eq_false_iff_ne.mpr hne
  simp [hb, Function.comp]

theorem regex_contains_eq_substr (q s : String)
    (h : ∀ c ∈ q.data, is_regex_meta c = false) :
    regex_contains_i q s = substr_contains_i q s := by
  unfold regex_contains_i substr_contains_i rcontains
  rw [rtoks_of_no_meta q h]
  simp only [rmatchAt_lit]

theorem rcontains_nil (s : List Char) : rcontains [] s = true := by
  unfold rcontains
  rw [List.any_eq_true]
  exact ⟨[], (List.mem_tails _ _).mpr List.nil_suffix, rfl⟩

/-! ### Claim theorems -/

/-- C1 (counterexample): /search does not implement literal substring
matching: the query "a.c" is interpreted as a regex, so it matches a tool
named "abc", which the substring reference rejects. -/
theorem search_not_literal_substring_cex :
    search_tools (some ⟨[], [⟨"abc", "sales", "s", [], [], none, none, none⟩], []⟩) ⟨"a.c"⟩ ≠
      substring_search_ref ⟨[], [⟨"abc", "sales", "s", [], [], none, none, none⟩], []⟩ "a.c" := by
  decide

/-- C1 (amended): for every query string free of regex metacharacters,
POST /search on a configured store returns exactly the tools one of whose
name, summary or sector_slug contains the query as a case-insensitive
literal substring, shaped as {name, sector_slug, summary, rating,
website}; in general the query is interpreted by the store as a
case-insensitive regular expression. -/
theorem search_matches_substring_on_literal_query (st : Store) (q : String)
    (h : ∀ c ∈ q.data, is_regex_meta c = false) :
    search_tools (some st) ⟨q⟩ = substring_search_ref st q := by
  unfold search_tools substring_search_ref
  have hpt : ∀ s : String, regex_contains_i q s = substr_contains_i q s :=
    fun s => regex_contains_eq_substr q s h
  simp only [hpt]

/-- Witness for the amended C1 at the concrete query "copilot". -/
theorem search_matches_substring_on_literal_query_witness :
    search_tools (some seededStore) ⟨"copilot"⟩ = substring_search_ref seededStore "copilot" :=
  search_matches_substring_on_literal_query seededStore "copilot" (by decide)

/-- C2: seeding an empty store twice in sequence gives exactly 5 sectors,
10 tools and 5 comparisons, and the second call changes nothing. -/
theorem seed_twice_sequential_idempotent :
    seed_content (some emptyStore) = .ok (seededStore, ⟨"ok"⟩) ∧
    seed_content (some seededStore) = .ok (seededStore, ⟨"ok"⟩) ∧
    seededStore.sector.length = 5 ∧ seededStore.tool.length = 10 ∧
    seededStore.comparison.length = 5 :=
  ⟨rfl, rfl, rfl, rfl, rfl⟩

/-- C3 (counterexample): construction with a required text field equal to
the empty string succeeds for all three record shapes — the schemas have
no non-empty constraint, contradicting the claim that it fails. -/
theorem empty_string_fields_accepted_cex :
    Sector.validate (some "") (some "") none = .ok ⟨"", "", none⟩ ∧
    Tool.validate (some "") (some "") (some "") none none none none none =
      .ok ⟨"", "", "", [], [], none, none, none⟩ ∧
    Comparison.validate (some "") (some "") none none = .ok ⟨"", "", none, []⟩ :=
  ⟨rfl, rfl, rfl⟩

/-- C3 (amended): construction succeeds whenever the required fields are
present, whatever their contents (the empty string included); it fails
with a validation error identifying the offending field exactly when a
required field is absent. -/
theorem validate_requires_presence_not_nonempty :
    (∀ (n sl : String) (d : Option String),
       Sector.validate (some n) (some sl) d = .ok ⟨n, sl, d⟩) ∧
    (∀ (sl d : Option String), Sector.validate none sl d = .error (.missing "name")) ∧
    (∀ (n : String) (d : Option String),
       Sector.validate (some n) none d = .error (.missing "slug")) ∧
    (∀ (n ss sm : String) (p : Option String),
       Tool.validate (some n) (some ss) (some sm) none none none p none =
         .ok ⟨n, ss, sm, [], [], none, p, none⟩) ∧
    (∀ (ss sm : Option String) (stg lim : Option (List String)) (w p : Option String) (r : Option ℚ),
       Tool.validate none ss sm stg lim w p r = .error (.missing "name")) ∧
    (∀ (n : String) (sm : Option String) (stg lim : Option (List String)) (w p : Option String) (r : Option ℚ),
       Tool.validate (some n) none sm stg lim w p r = .error (.missing "sector_slug")) ∧
    (∀ (n ss : String) (stg lim : Option (List String)) (w p : Option String) (r : Option ℚ),
       Tool.validate (some n) (some ss) none stg lim w p r = .error (.missing "summary")) ∧
    (∀ (ss h : String) (i : Option String) (tt : Option (List String)),
       Comparison.validate (some ss) (some h) i tt = .ok ⟨ss, h, i, tt.getD []⟩) ∧
    (∀ (h i : Option String) (tt : Option (List String)),
       Comparison.validate none h i tt = .error (.missing "sector_slug")) ∧
    (∀ (ss : String) (i : Option String) (tt : Option (List String)),
       Comparison.validate (some ss) none i tt = .error (.missing "headline")) :=
  ⟨fun _ _ _ => rfl, fun _ _ => rfl, fun _ _ => rfl, fun _ _ _ _ => rfl,
   fun _ _ _ _ _ _ _ => rfl, fun _ _ _ _ _ _ _ => rfl, fun _ _ _ _ _ _ _ => rfl,
   fun _ _ _ _ => rfl, fun _ _ _ => rfl, fun _ _ _ => rfl⟩

/-- C4: Tool construction succeeds whenever the required strings are
present, the rating is absent or in [0, 5] and the website absent or a
well-formed URL; and it fails whenever the rating is outside [0, 5]. -/
theorem tool_rating_url_validation :
    (∀ (n ss sm : String) (stg lim : Option (List String)) (w p : Option String) (r : Option ℚ),
        (r = none ∨ ∃ x, r = some x ∧ 0 ≤ x ∧ x ≤ 5) →
        (w = none ∨ ∃ u, w = some u ∧ is_well_formed_url u = true) →
        ∃ t, Tool.validate (some n) (some ss) (some sm) stg lim w p r = .ok t) ∧
    (∀ (n ss sm : String) (stg lim : Option (List String)) (w p : Option String) (x : ℚ),
        ¬(0 ≤ x ∧ x ≤ 5) →
        ∃ e, Tool.validate (some n) (some ss) (some sm) stg lim w p (some x) = .error e) := by
  constructor
  · intro n ss sm stg lim w p r hr hw
    rcases hw with rfl | ⟨u, rfl, hu⟩
    · rcases hr with rfl | ⟨x, rfl, hx⟩
      · exact ⟨_, rfl⟩
      · refine ⟨⟨n, ss, sm, stg.getD [], lim.getD [], none, p, some x⟩, ?_⟩
        simp [Tool.validate, hx]
    · rcases hr with rfl | ⟨x, rfl, hx⟩
      · refine ⟨⟨n, ss, sm, stg.getD [], lim.getD [], some u, p, none⟩, ?_⟩
        simp [Tool.validate, hu]
      · refine ⟨⟨n, ss, sm, stg.getD [], lim.getD [], some u, p, some x⟩, ?_⟩
        simp [Tool.validate, hu, hx]
  · intro n ss sm stg lim w p x hx
    cases w with
    | none => simp [Tool.validate, hx]
    | some u =>
      cases hu : is_well_formed_url u <;> simp [Tool.validate, hu, hx]

/-- Witness for C4: a valid seed tool input is accepted; a rating of 6 is
rejected. -/
theorem tool_rating_url_validation_witness :
    (∃ t, Tool.validate (some "Jasper") (some "marketing") (some "AI copy for ads and blogs")
        none none (some "https://www.jasper.ai") none (some (4.2 : ℚ)) = .ok t) ∧
    (∃ e, Tool.validate (some "X") (some "s") (some "y") none none none none
        (some (6 : ℚ)) = .error e) :=
  ⟨tool_rating_url_validation.1 _ _ _ _ _ _ _ _
      (Or.inr ⟨_, rfl, by norm_num, by norm_num⟩) (Or.inr ⟨_, rfl, by decide⟩),
   tool_rating_url_validation.2 _ _ _ _ _ _ _ _ (by norm_num)⟩

/-- C5: the seed operation treats the three collections independently: a
collection that already holds a document is left untouched, and an empty
collection receives exactly the fixed hardcoded records. -/
theorem seed_collectionwise_frame (st st' : Store) (r : SeedResponse)
    (h : seed_content (some st) = .ok (st', r)) :
    ((st.sector = [] → st'.sector = seedSectors) ∧
     (st.sector ≠ [] → st'.sector = st.sector)) ∧
    ((st.tool = [] → st'.tool = seedTools) ∧
     (st.tool ≠ [] → st'.tool = st.tool)) ∧
    ((st.comparison = [] → st'.comparison = seedComparisons) ∧
     (st.comparison ≠ [] → st'.comparison = st.comparison)) := by
  rw [seed_content_some] at h
  have hst : st' = ⟨if st.sector.isEmpty then seedSectors else st.sector,
      if st.tool.isEmpty then seedTools else st.tool,
      if st.comparison.isEmpty then seedComparisons else st.comparison⟩ := by
    cases h
    rfl
  subst hst
  refine ⟨⟨?_, ?_⟩, ⟨?_, ?_⟩, ⟨?_, ?_⟩⟩ <;> intro hc <;>
    simp [List.isEmpty_iff, hc]

/-- Witness for C5 at the empty store. -/
theorem seed_collectionwise_frame_witness :
    ((emptyStore.sector = [] → seededStore.sector = seedSectors) ∧
     (emptyStore.sector ≠ [] → seededStore.sector = emptyStore.sector)) ∧
    ((emptyStore.tool = [] → seededStore.tool = seedTools) ∧
     (emptyStore.tool ≠ [] → seededStore.tool = emptyStore.tool)) ∧
    ((emptyStore.comparison = [] → seededStore.comparison = seedComparisons) ∧
     (emptyStore.comparison ≠ [] → seededStore.comparison = emptyStore.comparison)) :=
  seed_collectionwise_frame emptyStore seededStore ⟨"ok"⟩ rfl

/-- C6: on a configured store, GET /sectors/{slug} returns 404 "Sector not
found" exactly when no sector document carries the slug; when one does,
the call succeeds with the first matching sector, all tools of that
sector_slug, and the first matching comparison or none. -/
theorem sector_detail_found_iff (st : Store) (slug : String) :
    (sector_detail (some st) slug = .error ⟨404, "Sector not found"⟩ ↔
       ∀ s ∈ st.sector, s.slug ≠ slug) ∧
    (∀ sec, st.sector.find? (fun s => s.slug == slug) = some sec →
       sector_detail (some st) slug = .ok
         ⟨⟨sec.name, sec.slug, sec.description⟩,
          (st.tool.filter (fun t => t.sector_slug == slug)).map
            (fun t => ⟨t.name, t.summary, t.strengths, t.limitations, t.website, t.pricing, t.rating⟩),
          (st.comparison.find? (fun c => c.sector_slug == slug)).map
            (fun c => ⟨c.headline, c.intro, c.top_tools⟩)⟩) := by
  constructor
  · cases hf : st.sector.find? (fun s => s.slug == slug) with
    | none =>
      have hall : ∀ s ∈ st.sector, s.slug ≠ slug := by
        intro s hs
        have := List.find?_eq_none.mp hf s hs
        simpa using this
      have herr : sector_detail (some st) slug = .error ⟨404, "Sector not found"⟩ := by
        simp only [sector_detail, hf]
      exact iff_of_true herr hall
    | some sec =>
      have hmem := List.mem_of_find?_eq_some hf
      have heq : sec.slug = slug := by simpa using List.find?_some hf
      have hnall : ¬ ∀ s ∈ st.sector, s.slug ≠ slug := fun hall => hall sec hmem heq
      have hne : sector_detail (some st) slug ≠ .error ⟨404, "Sector not found"⟩ := by
        simp [sector_detail, hf]
      exact iff_of_false hne hnall
  · intro sec hf
    simp only [sector_detail, hf]

/-- Witness for C6: after seeding, an unknown slug yields 404 and the
marketing slug yields the shaped detail response. -/
theorem sector_detail_found_iff_witness :
    sector_detail (some seededStore) "does-not-exist" = .error ⟨404, "Sector not found"⟩ ∧
    sector_detail (some seededStore) "marketing" = .ok
      ⟨⟨(⟨"Marketing", "marketing", some "Campaigns, content, SEO"⟩ : Sector).name,
        (⟨"Marketing", "marketing", some "Campaigns, content, SEO"⟩ : Sector).slug,
        (⟨"Marketing", "marketing", some "Campaigns, content, SEO"⟩ : Sector).description⟩,
       (seededStore.tool.filter (fun t => t.sector_slug == "marketing")).map
         (fun t => ⟨t.name, t.summary, t.strengths, t.limitations, t.website, t.pricing, t.rating⟩),
       (seededStore.comparison.find? (fun c => c.sector_slug == "marketing")).map
         (fun c => ⟨c.headline, c.intro, c.top_tools⟩)⟩ :=
  ⟨(sector_detail_found_iff seededStore "does-not-exist").1.mpr (by decide),
   (sector_detail_found_iff seededStore "marketing").2
     ⟨"Marketing", "marketing", some "Campaigns, content, SEO"⟩ (by decide)⟩

/-- C7: with no configured store, POST /seed and GET /sectors/{slug} both
fail with 500 "Database not configured" for every input; the model has no
store to read or write in that case. -/
theorem unconfigured_store_errors :
    seed_content none = .error ⟨500, "Database not configured"⟩ ∧
    ∀ slug, sector_detail none slug = .error ⟨500, "Database not configured"⟩ :=
  ⟨rfl, fun _ => rfl⟩

/-- C8: with no configured store, the pure reads degrade: GET /sectors
returns [] and POST /search returns empty results, for every query. -/
theorem unconfigured_reads_degrade :
    list_sectors none = [] ∧ ∀ q : SearchQuery, search_tools none q = ⟨[]⟩ :=
  ⟨rfl, fun _ => rfl⟩

/-- C9: after seeding an empty store, GET /sectors/engineering succeeds
with exactly the tools "GitHub Copilot" and "OpenAI o1" and a comparison
headlined "AI for Software Development". -/
theorem seeded_engineering_detail :
    ∃ (st : Store) (r : SeedResponse),
      seed_content (some emptyStore) = .ok (st, r) ∧
      (sector_detail (some st) "engineering").map
          (fun d => (d.tools.map ToolDetailShape.name, d.comparison.map ComparisonShape.headline)) =
        .ok (["GitHub Copilot", "OpenAI o1"], some "AI for Software Development") :=
  ⟨seededStore, ⟨"ok"⟩, rfl, rfl⟩

/-- C10: POST /search with the empty query returns every tool in the
store, shaped; the empty pattern matches every string. -/
theorem search_empty_query_returns_all (st : Store) :
    search_tools (some st) ⟨""⟩ =
      ⟨st.tool.map (fun t => ⟨t.name, t.sector_slug, t.summary, t.rating, t.website⟩)⟩ := by
  have h1 : ∀ s : String, regex_contains_i "" s = true := by
    intro s
    unfold regex_contains_i
    rw [show rtoks "" = [] from rfl]
    exact rcontains_nil _
  have hpred : ∀ t ∈ st.tool,
      (regex_contains_i "" t.name || regex_contains_i "" t.summary ||
        regex_contains_i "" t.sector_slug) = true := by
    intro t _
    simp [h1]
  unfold search_tools
  show SearchResponse.mk ((st.tool.filter (fun t =>
      regex_contains_i "" t.name || regex_contains_i "" t.summary ||
      regex_contains_i "" t.sector_slug)).map
    (fun t => ⟨t.name, t.sector_slug, t.summary, t.rating, t.website⟩)) = _
  rw [List.filter_eq_self.mpr hpred]

end AITools
